import Mathlib

/-
Verification of the data-refresh-and-aggregation core of the dashboard
(`src/dashboard.py`): a tabular data loader, four metric calculators,
a file-change watcher predicate, and the tile view assembled by `main`.

The pandas DataFrame is embedded shallowly as a `Table`: a list of column
names together with a list of rows, each row an association list from
column name to `Cell`.  Machine floats are modelled by `ℚ`, with `Option ℚ`
where pandas produces `NaN` (an absent mean); Python exceptions are
modelled by `Except String`.  Dates are day ordinals (`Int`); the result of
`pd.to_datetime(col, errors := coerce).dt.date` is modelled by `coerceCell`
(parseable date cells survive, everything else becomes a null cell, the
model of `NaT`).
-/

deriving instance DecidableEq for Except

namespace Dashboard

/-- A cell of the loaded spreadsheet: a numeric value (pandas int64/float64,
modelled exactly by `ℚ`), a raw string, a date-like value (day ordinal), or
a null (`NaN`/`NaT`/missing). -/
inductive Cell where
  | num (q : ℚ)
  | str (s : String)
  | date (d : Int)
  | null
deriving DecidableEq

/-- One row of the loaded spreadsheet: an association list from column name
to cell value (a pandas row restricted to the frame's columns). -/
abbrev Row := List (String × Cell)

/-- The Metrics Table: the in-memory image of the spreadsheet, column names
plus rows (`pd.read_excel(EXCEL_FILE, sheet_name := 0)`). -/
structure Table where
  cols : List String
  rows : List Row
deriving DecidableEq

/-- Column name used by `calculate_metrics` for the average (dashboard.py:41). -/
def workcol : String := "Minutes of Total Video Work Done (min)"

/-- Column name used by `calculate_metrics` for the words sum (dashboard.py:42). -/
def wordscol : String := "Words Translated (nos.)"

/-- Column name summed by `get_daily_comparison` (dashboard.py:54). -/
def locMincol : String := "Minutes of Video Localized (min) - Paid"

/-- Column name summed by `get_clients_on_date` (dashboard.py:66). -/
def clientscol : String := "Total Number of Clients (nos.) - Platform Users"

/-- The tracked spreadsheet file name (dashboard.py:10). -/
def EXCEL_FILE : String := "Daily_Metric_Tracking_Sheet (1).xlsx"

/-- Reading one cell of a row; a key absent from the row is a missing value
(`NaN`), modelled as `Cell.null`. -/
def rowGet : Row → String → Cell
  | [], _ => Cell.null
  | p :: rest, c => if p.1 = c then p.2 else rowGet rest c

/-- Overwriting one cell of a row (elementwise effect of a pandas column
assignment): the first binding of the key is replaced, a missing key is
appended. -/
def setCell : Row → String → Cell → Row
  | [], n, v => [(n, v)]
  | p :: rest, n, v => if p.1 = n then (n, v) :: rest else p :: setCell rest n v

/-- Column access `df[c]`: the list of the column's cells, or a `KeyError`
when the column is absent — pandas raises, the model returns `.error`. -/
def getCol (df : Table) (c : String) : Except String (List Cell) :=
  if c ∈ df.cols then .ok (df.rows.map (fun r => rowGet r c)) else .error ("KeyError: " ++ c)

/-- Column assignment `df[n] = vals` (in-place in pandas; the model returns
the post-state table): every row gets its `n` cell overwritten with the
corresponding element of `vals`, and `n` is appended to the columns when new. -/
def setColumn (df : Table) (n : String) (vals : List Cell) : Table :=
  { cols := if n ∈ df.cols then df.cols else df.cols ++ [n],
    rows := (df.rows.zip vals).map (fun p => setCell p.1 n p.2) }

/-- The date a cell yields under `pd.to_datetime(·, errors := coerce).dt.date`:
a date-like cell parses to its day ordinal, anything else (missing value,
unparseable garbage) coerces to `NaT`, modelled as `none`. -/
def parseDate (c : Cell) : Option Int :=
  match c with
  | .date d => some d
  | _ => none

/-- The coerced form of a date cell: the parsed date when it parses, a null
cell (`NaT`) otherwise. -/
def coerceCell (c : Cell) : Cell :=
  match parseDate c with
  | some d => .date d
  | none => .null

/-- The boolean mask entry `cell == t` for a target date `t`: Python `==`
between a date and a non-date (including `NaT`) is `False`. -/
def dateCellIs (c : Cell) (t : Int) : Bool :=
  match c with
  | .date d => d == t
  | _ => false

/-- The numeric content of a cell; non-numeric cells carry no number. -/
def cellNum (c : Cell) : Option ℚ :=
  match c with
  | .num q => some q
  | _ => none

/-- `Series.mean()` over a column of cells: the mean of the numeric entries
(nulls are skipped, as pandas skips `NaN`); an empty column has mean `NaN`,
modelled as `none`.  The dashboard only applies this to the numeric
work-duration column of the sheet. -/
def series_mean (cells : List Cell) : Option ℚ :=
  let vs := cells.filterMap cellNum
  if vs.isEmpty then none else some (vs.sum / vs.length)

/-- `Series.sum()` over a column of cells: the sum of the numeric entries
(`skipna` semantics: nulls contribute nothing); the empty sum is `0`. -/
def series_sum (cells : List Cell) : ℚ :=
  (cells.filterMap cellNum).sum

/-- Python `round` to an integer: round-half-to-even (banker's rounding),
on exact rationals. -/
def roundHalfEven (q : ℚ) : Int :=
  let f : Int := q.num.fdiv q.den
  let frac : ℚ := q - (f : ℚ)
  if frac < 1 / 2 then f
  else if 1 / 2 < frac then f + 1
  else if f % 2 = 0 then f else f + 1

/-- Python `round(x, 2)` on an exact rational. -/
def pyround2 (q : ℚ) : ℚ := (roundHalfEven (q * 100) : ℚ) / 100

/-- Grouping a reversed digit string into blocks of three, inserting `,`
(the worker behind the `:,` format specifier). -/
def chunk3 : List Char → List Char
  | a :: b :: c :: d :: rest => a :: b :: c :: ',' :: chunk3 (d :: rest)
  | l => l

/-- `f-string` thousands formatting of a natural number, as in `f"{n:,}"`. -/
def natThousands (n : Nat) : String :=
  String.mk ((chunk3 (Nat.repr n).data.reverse).reverse)

/-- `f-string` thousands formatting of an integer, as in `f"{i:,}"`. -/
def intThousands (i : Int) : String :=
  if i < 0 then "-" ++ natThousands i.natAbs else natThousands i.natAbs

/-- `f"{x:,}"` applied to a column sum.  The words-translated column is an
integer count column (spec section 6), so the sum the dashboard formats is an
integer; the non-integral branch renders the exact rational. -/
def fmtThousands (q : ℚ) : String :=
  if q.den = 1 then intThousands q.num else intThousands q.num ++ "/" ++ Nat.repr q.den

/-- Python `str(x)` for the integer-valued sums the dashboard interpolates
into tile strings; the non-integral branch renders the exact rational. -/
def fmtNum (q : ℚ) : String :=
  if q.den = 1 then toString q.num else toString q.num ++ "/" ++ Nat.repr q.den

/-- Decimal rendering of a two-decimal-rounded value, as Python displays the
float `round(x, 2)`: at most two fractional digits, at least one
(`15 ↦ "15.0"`, `15.1 ↦ "15.1"`, `15.26 ↦ "15.26"`, `15.05 ↦ "15.05"`).
Only applied to outputs of `pyround2`, whose hundredths part is integral. -/
def fmtHundredths (q : ℚ) : String :=
  let n : Int := (q * 100).num
  let sign := if n < 0 then "-" else ""
  let m := n.natAbs
  let ip := m / 100
  let fp := m % 100
  sign ++ Nat.repr ip ++ "." ++
    (if fp % 10 = 0 then Nat.repr (fp / 10)
     else if fp < 10 then "0" ++ Nat.repr fp else Nat.repr fp)

/-- Display form of the average tile's value: `NaN` renders as `"nan"`. -/
def fmtAvg : Option ℚ → String
  | none => "nan"
  | some q => fmtHundredths q

/-- The overall metrics dictionary built by `calculate_metrics`
(dashboard.py:40-43): the rounded mean of the work-duration column (`none`
models the float `NaN`) and the thousands-formatted words sum. -/
structure Metrics where
  avgMinutesOfWork : Option ℚ
  wordsTranslated : String
deriving DecidableEq

/-- `calculate_metrics(df)` (dashboard.py:38-44).  The function body has no
`try`/`except`: a missing column raises `KeyError` out of the function,
modelled by `.error`.  The work-duration column is read first (the dict
literal evaluates its values in order). -/
def calculate_metrics (df : Table) : Except String Metrics :=
  match getCol df workcol with
  | .error e => .error e
  | .ok workCells =>
    match getCol df wordscol with
    | .error e => .error e
    | .ok wordCells =>
      .ok { avgMinutesOfWork := (series_mean workCells).map pyround2,
            wordsTranslated := fmtThousands (series_sum wordCells) }

/-- `df[df[Date] == t][col].sum()`: select the rows whose (already coerced)
date cell equals the target `t`, take column `col` of the selection, sum.
Reading a missing column raises `KeyError` (the mask reads the date column,
the projection reads `col`). -/
def filteredSum (df : Table) (col : String) (t : Int) : Except String ℚ :=
  if "Date" ∈ df.cols then
    if col ∈ df.cols then
      .ok ((((df.rows.filter (fun r => dateCellIs (rowGet r "Date") t)).map
              (fun r => rowGet r col)).filterMap cellNum).sum)
    else .error ("KeyError: " ++ col)
  else .error ("KeyError: Date")

/-- The effect of `df[Date] = pd.to_datetime(df[Date], errors := coerce).dt.date`
(dashboard.py:49 and dashboard.py:65): every row's `Date` cell is overwritten
with its coerced form.  Reading `df[Date]` on a table without that column
raises `KeyError` before anything is written, so in that case the table is
returned untouched. -/
def coerceDateColumn (df : Table) : Table :=
  if "Date" ∈ df.cols then
    setColumn df "Date" ((df.rows.map (fun r => rowGet r "Date")).map coerceCell)
  else df

/-- `get_daily_comparison(df)` (dashboard.py:46-60), with the wall-clock
`datetime.now().date()` passed as the `today` parameter.  The body first
overwrites the `Date` column with its coerced form (an in-place mutation of
the caller's frame, modelled by the returned post-state table), then sums
the localized-minutes column on today's and yesterday's rows.  Any
exception (`KeyError` from a missing column) is caught, `st.error` is shown
and `(0, 0)` is returned — but a mutation already performed is not rolled
back by the `except` clause. -/
def get_daily_comparison (df : Table) (today : Int) : (ℚ × ℚ) × Table :=
  if "Date" ∈ df.cols then
    match filteredSum (coerceDateColumn df) locMincol today,
          filteredSum (coerceDateColumn df) locMincol (today - 1) with
    | .ok a, .ok b => ((a, b), coerceDateColumn df)
    | _, _ => ((0, 0), coerceDateColumn df)
  else ((0, 0), df)

/-- `get_clients_on_date(df, date)` (dashboard.py:62-70): same shape as
`get_daily_comparison` — coerce the `Date` column in place, sum the
client-count column over the rows matching `date`, catch any exception and
return `0`. -/
def get_clients_on_date (df : Table) (date : Int) : ℚ × Table :=
  if "Date" ∈ df.cols then
    match filteredSum (coerceDateColumn df) clientscol date with
    | .ok s => (s, coerceDateColumn df)
    | .error _ => (0, coerceDateColumn df)
  else (0, df)

/-- `load_data()` (dashboard.py:29-36).  The outcome of
`pd.read_excel(EXCEL_FILE, sheet_name := 0)` — a third-party call on an
external resource — is passed in abstractly: `.ok` a parsed table, or
`.error` for any read failure (missing, unreadable, malformed file).  On
failure the function reports `st.error(...)` (the returned message) and
yields `pd.DataFrame()`, the empty table; no exception propagates. -/
def load_data (readResult : Except String Table) : Table × Option String :=
  match readResult with
  | .ok df => (df, none)
  | .error e => ({ cols := [], rows := [] }, some ("Error loading file: " ++ e))

/-- `ExcelFileHandler.on_modified` (dashboard.py:18-20): the reload callback
is invoked exactly when `event.src_path.endswith(EXCEL_FILE)` holds.  Python
`str.endswith` is string-suffix testing. -/
def on_modified_triggers (srcPath : String) : Bool :=
  List.isSuffixOf EXCEL_FILE.data srcPath.data

/-- The event path the watchdog observer reports for the tracked file itself:
the observer is scheduled on the directory `"."` non-recursively
(dashboard.py:25), so the tracked resource's events carry this path. -/
def trackedEventPath : String := "./" ++ EXCEL_FILE

/-- The day-over-day direction indicator computed by `main`
(dashboard.py:93-98): the up arrow exactly when today's sum strictly
exceeds yesterday's, the down arrow otherwise (ties included). -/
def arrowFor (todayMinutes yesterdayMinutes : ℚ) : String :=
  if todayMinutes > yesterdayMinutes then "⬆️" else "⬇️"

/-- The day-over-day magnitude `abs(today_minutes - yesterday_minutes)`
shown by `main` (dashboard.py:104). -/
def deltaMagnitude (todayMinutes yesterdayMinutes : ℚ) : ℚ :=
  |todayMinutes - yesterdayMinutes|

/-- One summary tile of the rendered view: label, primary value, and the
optional delta annotation (`st.metric`). -/
structure Tile where
  label : String
  value : String
  delta : Option String
deriving DecidableEq

/-- The four summary tiles `main` renders (dashboard.py:87-105), given the
loaded table and the wall-clock date.  `main` computes the metrics dict,
then the daily comparison, then clients-on-today and clients-on-yesterday
(each call threading the in-place date coercion), and lays out four tiles;
the clients-on-today value is computed (dashboard.py:90) but appears in no
tile.  `calculate_metrics` is unguarded, so its `KeyError` aborts the
render (`.error`). -/
def main_view (data : Table) (today : Int) : Except String (List Tile) :=
  match calculate_metrics data with
  | .error e => .error e
  | .ok m =>
    let dc := get_daily_comparison data today
    let todayMinutes := dc.1.1
    let yesterdayMinutes := dc.1.2
    let ct := get_clients_on_date dc.2 today
    let cy := get_clients_on_date ct.2 (today - 1)
    .ok [ { label := "Avg Minutes of Work", value := fmtAvg m.avgMinutesOfWork, delta := none },
          { label := "Total Words Translated", value := m.wordsTranslated, delta := none },
          { label := "Minutes Localized (Paid)",
            value := fmtNum yesterdayMinutes ++ " min",
            delta := some (arrowFor todayMinutes yesterdayMinutes ++ " " ++
                           fmtNum (deltaMagnitude todayMinutes yesterdayMinutes)) },
          { label := "Total Clients Onboarded", value := fmtNum cy.1, delta := none } ]

/-- Specification-side date-filtered aggregate (spec sections 3 and 4.2):
the sum of column `col` over exactly the rows whose date value parses to
the target date `t`, read off the original, un-coerced table. -/
def dateFilteredSum (df : Table) (col : String) (t : Int) : ℚ :=
  (((df.rows.filter (fun r => parseDate (rowGet r "Date") == some t)).map
      (fun r => rowGet r col)).filterMap cellNum).sum

/-- Specification-side exact column sum (spec section 8: total-words equals
the sum of the words-translated column exactly): a right fold adding each
numeric cell of the column. -/
def columnSumSpec (df : Table) (col : String) : ℚ :=
  (df.rows.map (fun r => rowGet r col)).foldr
    (fun c acc => match cellNum c with | some q => q + acc | none => acc) 0

/-- A table extended by one appended row. -/
def addRow (df : Table) (r : Row) : Table :=
  { cols := df.cols, rows := df.rows ++ [r] }

/-- `pd.DataFrame()`: the table a failed load yields — no columns, no rows. -/
def emptyTable : Table := { cols := [], rows := [] }

/-- A table with all five required columns and zero rows. -/
def zeroRowTable : Table :=
  { cols := [workcol, wordscol, locMincol, "Date", clientscol], rows := [] }

/-- The spec's words scenario: rows `{date := D, words := 100}` and
`{date := D, words := 50}` (work-duration column present but unfilled). -/
def scenarioTable : Table :=
  { cols := [workcol, wordscol, "Date"],
    rows := [[("Date", Cell.date 5), (wordscol, Cell.num 100)],
             [("Date", Cell.date 5), (wordscol, Cell.num 50)]] }

/-- A two-day table with all five required columns: day 10 with work 10,
words 100, localized 30, clients 3; day 9 with work 20, words 50,
localized 20, clients 2. -/
def fullTable : Table :=
  { cols := [workcol, wordscol, locMincol, "Date", clientscol],
    rows := [[("Date", Cell.date 10), (workcol, Cell.num 10), (wordscol, Cell.num 100),
              (locMincol, Cell.num 30), (clientscol, Cell.num 3)],
             [("Date", Cell.date 9), (workcol, Cell.num 20), (wordscol, Cell.num 50),
              (locMincol, Cell.num 20), (clientscol, Cell.num 2)]] }

/-- A table whose single row carries an unparseable date string. -/
def mutTable : Table :=
  { cols := ["Date", locMincol],
    rows := [[("Date", Cell.str "garbage"), (locMincol, Cell.num 5)]] }

/-- A row whose date cell is an unparseable string but whose metric cells
are nonzero. -/
def badRow : Row :=
  [("Date", Cell.str "n/a"), (locMincol, Cell.num 99), (clientscol, Cell.num 99)]

/-
Helper lemmas about the embedding, shared by the claim theorems below.
-/

/-- Two tables with equal fields are equal. -/
theorem Table.ext' {a b : Table} (h1 : a.cols = b.cols) (h2 : a.rows = b.rows) : a = b := by
  cases a; cases b; simp_all

/-- Reading back the cell a `setCell` wrote. -/
theorem rowGet_setCell_self (r : Row) (n : String) (v : Cell) :
    rowGet (setCell r n v) n = v := by
  induction r with
  | nil => simp [setCell, rowGet]
  | cons p rest ih =>
    by_cases h : p.1 = n <;> simp [setCell, rowGet, h, ih]

/-- `setCell` leaves every other key's value unchanged. -/
theorem rowGet_setCell_ne (r : Row) (n : String) (v : Cell) (c : String) (hc : c ≠ n) :
    rowGet (setCell r n v) c = rowGet r c := by
  induction r with
  | nil => simp [setCell, rowGet, Ne.symm hc]
  | cons p rest ih =>
    by_cases h : p.1 = n
    · subst h
      simp [setCell, rowGet, Ne.symm hc]
    · simp [setCell, h, rowGet, ih]

/-- Overwriting the same key twice keeps only the second write. -/
theorem setCell_setCell (r : Row) (n : String) (v w : Cell) :
    setCell (setCell r n v) n w = setCell r n w := by
  induction r with
  | nil => simp [setCell]
  | cons p rest ih =>
    by_cases h : p.1 = n <;> simp [setCell, h, ih]

/-- Zipping a list with its own image. -/
theorem zip_self_map {α β : Type} (l : List α) (h : α → β) :
    l.zip (l.map h) = l.map (fun x => (x, h x)) := by
  induction l with
  | nil => rfl
  | cons a rest ih => simp [ih]

/-- `setColumn` with values computed rowwise acts as a rowwise map. -/
theorem setColumn_rows_map (df : Table) (n : String) (g : Row → Cell) :
    (setColumn df n (df.rows.map g)).rows = df.rows.map (fun r => setCell r n (g r)) := by
  unfold setColumn
  simp [zip_self_map, List.map_map]

/-- The date coercion does not change the column list. -/
theorem coerceDateColumn_cols (df : Table) : (coerceDateColumn df).cols = df.cols := by
  unfold coerceDateColumn setColumn
  split
  · simp [*]
  · rfl

/-- Rowwise form of the date coercion when the `Date` column exists. -/
theorem coerceDateColumn_rows (df : Table) (hd : "Date" ∈ df.cols) :
    (coerceDateColumn df).rows =
      df.rows.map (fun r => setCell r "Date" (coerceCell (rowGet r "Date"))) := by
  unfold coerceDateColumn
  rw [if_pos hd, List.map_map, setColumn_rows_map]
  rfl

/-- The mask entry of a coerced cell agrees with the parse of the original. -/
theorem dateCellIs_coerceCell (c : Cell) (t : Int) :
    dateCellIs (coerceCell c) t = (parseDate c == some t) := by
  cases c <;> rfl

/-- Coercing a cell does not change its parsed date. -/
theorem parseDate_coerceCell (c : Cell) : parseDate (coerceCell c) = parseDate c := by
  cases c <;> rfl

/-- Cell coercion is idempotent. -/
theorem coerceCell_idem (c : Cell) : coerceCell (coerceCell c) = coerceCell c := by
  cases c <;> rfl

/-- `NaT` never equals a concrete target date. -/
theorem none_beq_some_int (t : Int) : ((none : Option Int) == some t) = false := rfl

/-- The mask-then-project pipeline on the coerced rows equals filtering the
original rows by parsed date. -/
theorem coerced_pipeline (rows : List Row) (col : String) (t : Int) (hne : col ≠ "Date") :
    ((rows.map (fun r => setCell r "Date" (coerceCell (rowGet r "Date")))).filter
        (fun r => dateCellIs (rowGet r "Date") t)).map (fun r => rowGet r col)
      = (rows.filter (fun r => parseDate (rowGet r "Date") == some t)).map
          (fun r => rowGet r col) := by
  induction rows with
  | nil => rfl
  | cons r rest ih =>
    simp only [List.map_cons, List.filter_cons, rowGet_setCell_self, dateCellIs_coerceCell]
    cases hb : (parseDate (rowGet r "Date") == some t)
    · simp [hb, ih]
    · simp [hb, ih, rowGet_setCell_ne _ _ _ _ hne]

/-- The parsed-date filter composed with the coercion, projected to another
column, equals the same filter and projection on the original rows. -/
theorem coerced_pipeline2 (rows : List Row) (col : String) (t : Int) (hne : col ≠ "Date") :
    ((rows.map (fun r => setCell r "Date" (coerceCell (rowGet r "Date")))).filter
        (fun r => parseDate (rowGet r "Date") == some t)).map (fun r => rowGet r col)
      = (rows.filter (fun r => parseDate (rowGet r "Date") == some t)).map
          (fun r => rowGet r col) := by
  induction rows with
  | nil => rfl
  | cons r rest ih =>
    simp only [List.map_cons, List.filter_cons, rowGet_setCell_self, parseDate_coerceCell]
    cases hb : (parseDate (rowGet r "Date") == some t)
    · simp [hb, ih]
    · simp [hb, ih, rowGet_setCell_ne _ _ _ _ hne]

/-- On a table with the required columns, the code's masked sum over the
coerced table is exactly the specification's date-filtered sum over the
original table. -/
theorem filteredSum_coerce (df : Table) (col : String) (t : Int)
    (hd : "Date" ∈ df.cols) (hc : col ∈ df.cols) (hne : col ≠ "Date") :
    filteredSum (coerceDateColumn df) col t = .ok (dateFilteredSum df col t) := by
  have hd1 : "Date" ∈ (coerceDateColumn df).cols := by rw [coerceDateColumn_cols]; exact hd
  have hc1 : col ∈ (coerceDateColumn df).cols := by rw [coerceDateColumn_cols]; exact hc
  unfold filteredSum dateFilteredSum
  rw [if_pos hd1, if_pos hc1, coerceDateColumn_rows df hd, coerced_pipeline _ _ _ hne]

/-- A missing projected column makes the masked sum raise `KeyError`. -/
theorem filteredSum_nocol (df : Table) (col : String) (t : Int)
    (hd : "Date" ∈ df.cols) (hc : col ∉ df.cols) :
    filteredSum df col t = .error ("KeyError: " ++ col) := by
  unfold filteredSum
  rw [if_pos hd, if_neg hc]

/-- `get_daily_comparison` on a table with the required columns returns the
two date-filtered sums. -/
theorem daily_fst (df : Table) (t : Int) (hd : "Date" ∈ df.cols) (hm : locMincol ∈ df.cols) :
    (get_daily_comparison df t).1 =
      (dateFilteredSum df locMincol t, dateFilteredSum df locMincol (t - 1)) := by
  have hne : locMincol ≠ "Date" := by decide
  unfold get_daily_comparison
  rw [if_pos hd, filteredSum_coerce df locMincol t hd hm hne,
    filteredSum_coerce df locMincol (t - 1) hd hm hne]

/-- Without a `Date` column the comparison falls into the handler. -/
theorem daily_fst_nodate (df : Table) (t : Int) (hd : "Date" ∉ df.cols) :
    (get_daily_comparison df t).1 = (0, 0) := by
  unfold get_daily_comparison
  rw [if_neg hd]

/-- Without the localized-minutes column the comparison falls into the
handler. -/
theorem daily_fst_nocol (df : Table) (t : Int) (hm : locMincol ∉ df.cols) :
    (get_daily_comparison df t).1 = (0, 0) := by
  by_cases hd : "Date" ∈ df.cols
  · have hd1 : "Date" ∈ (coerceDateColumn df).cols := by rw [coerceDateColumn_cols]; exact hd
    have hm1 : locMincol ∉ (coerceDateColumn df).cols := by rw [coerceDateColumn_cols]; exact hm
    unfold get_daily_comparison
    rw [if_pos hd, filteredSum_nocol _ _ t hd1 hm1, filteredSum_nocol _ _ (t - 1) hd1 hm1]
  · exact daily_fst_nodate df t hd

/-- The table `get_daily_comparison` leaves behind is the date-coerced one. -/
theorem daily_snd (df : Table) (t : Int) :
    (get_daily_comparison df t).2 = coerceDateColumn df := by
  by_cases hd : "Date" ∈ df.cols
  · unfold get_daily_comparison
    rw [if_pos hd]
    split <;> rfl
  · unfold get_daily_comparison coerceDateColumn
    rw [if_neg hd, if_neg hd]

/-- `get_clients_on_date` on a table with the required columns returns the
date-filtered client sum. -/
theorem clients_fst (df : Table) (d : Int) (hd : "Date" ∈ df.cols) (hc : clientscol ∈ df.cols) :
    (get_clients_on_date df d).1 = dateFilteredSum df clientscol d := by
  have hne : clientscol ≠ "Date" := by decide
  unfold get_clients_on_date
  rw [if_pos hd, filteredSum_coerce df clientscol d hd hc hne]

/-- Without a `Date` column the client lookup falls into the handler. -/
theorem clients_fst_nodate (df : Table) (d : Int) (hd : "Date" ∉ df.cols) :
    (get_clients_on_date df d).1 = 0 := by
  unfold get_clients_on_date
  rw [if_neg hd]

/-- Without the client-count column the lookup falls into the handler. -/
theorem clients_fst_nocol (df : Table) (d : Int) (hc : clientscol ∉ df.cols) :
    (get_clients_on_date df d).1 = 0 := by
  by_cases hd : "Date" ∈ df.cols
  · have hd1 : "Date" ∈ (coerceDateColumn df).cols := by rw [coerceDateColumn_cols]; exact hd
    have hc1 : clientscol ∉ (coerceDateColumn df).cols := by rw [coerceDateColumn_cols]; exact hc
    unfold get_clients_on_date
    rw [if_pos hd, filteredSum_nocol _ _ d hd1 hc1]
  · exact clients_fst_nodate df d hd

/-- The table `get_clients_on_date` leaves behind is the date-coerced one. -/
theorem clients_snd (df : Table) (d : Int) :
    (get_clients_on_date df d).2 = coerceDateColumn df := by
  by_cases hd : "Date" ∈ df.cols
  · unfold get_clients_on_date
    rw [if_pos hd]
    split <;> rfl
  · unfold get_clients_on_date coerceDateColumn
    rw [if_neg hd, if_neg hd]

/-- The in-place date coercion is idempotent. -/
theorem coerceDateColumn_idem (df : Table) :
    coerceDateColumn (coerceDateColumn df) = coerceDateColumn df := by
  by_cases hd : "Date" ∈ df.cols
  · have hd1 : "Date" ∈ (coerceDateColumn df).cols := by rw [coerceDateColumn_cols]; exact hd
    apply Table.ext'
    · rw [coerceDateColumn_cols]
    · rw [coerceDateColumn_rows _ hd1, coerceDateColumn_rows df hd, List.map_map]
      refine List.map_congr_left (fun r _ => ?_)
      simp [Function.comp, rowGet_setCell_self, setCell_setCell, coerceCell_idem]
  · simp [coerceDateColumn, hd]

/-- The parsed-date filter is blind to the coercion, so date-filtered sums
over the coerced table agree with those over the original. -/
theorem dateFilteredSum_coerce (df : Table) (col : String) (t : Int) (hne : col ≠ "Date") :
    dateFilteredSum (coerceDateColumn df) col t = dateFilteredSum df col t := by
  by_cases hd : "Date" ∈ df.cols
  · unfold dateFilteredSum
    rw [coerceDateColumn_rows df hd, coerced_pipeline2 _ _ _ hne]
  · simp [coerceDateColumn, hd]

/-- Running `get_clients_on_date` after the date coercion yields the same
value as running it on the original table. -/
theorem clients_fst_coerce (df : Table) (d : Int) :
    (get_clients_on_date (coerceDateColumn df) d).1 = (get_clients_on_date df d).1 := by
  by_cases hd : "Date" ∈ df.cols
  · have hd1 : "Date" ∈ (coerceDateColumn df).cols := by rw [coerceDateColumn_cols]; exact hd
    by_cases hc : clientscol ∈ df.cols
    · have hc1 : clientscol ∈ (coerceDateColumn df).cols := by
        rw [coerceDateColumn_cols]; exact hc
      rw [clients_fst _ d hd1 hc1, clients_fst df d hd hc]
      exact dateFilteredSum_coerce df clientscol d (by decide)
    · have hc1 : clientscol ∉ (coerceDateColumn df).cols := by
        rw [coerceDateColumn_cols]; exact hc
      rw [clients_fst_nocol _ d hc1, clients_fst_nocol df d hc]
  · simp [coerceDateColumn, hd]

/-- Appending a row with an unparseable date leaves every date-filtered sum
unchanged. -/
theorem dateFilteredSum_addRow_null (df : Table) (r : Row) (col : String) (t : Int)
    (h : parseDate (rowGet r "Date") = none) :
    dateFilteredSum (addRow df r) col t = dateFilteredSum df col t := by
  unfold dateFilteredSum addRow
  simp [List.filter_append, h, none_beq_some_int]

/-- The code's column sum coincides with the specification's fold. -/
theorem series_sum_eq_columnSumSpec (df : Table) (col : String) :
    series_sum (df.rows.map (fun r => rowGet r col)) = columnSumSpec df col := by
  unfold series_sum columnSumSpec
  generalize df.rows.map (fun r => rowGet r col) = cells
  induction cells with
  | nil => rfl
  | cons c cs ih => cases hc : cellNum c <;> simp [List.filterMap_cons, hc, ih]

/-- Other columns read the same before and after the date coercion. -/
theorem coerceDateColumn_other_cols (df : Table) (c : String) (hc : c ≠ "Date") :
    (coerceDateColumn df).rows.map (fun r => rowGet r c) =
      df.rows.map (fun r => rowGet r c) := by
  by_cases hd : "Date" ∈ df.cols
  · rw [coerceDateColumn_rows df hd, List.map_map]
    exact List.map_congr_left (fun r _ => by
      simp [Function.comp, rowGet_setCell_ne _ _ _ _ hc])
  · simp [coerceDateColumn, hd]

/-
Claim theorems.
-/

/-- C1: the claim asserts that every metric calculator — `calculate_metrics`
in particular — recovers from a missing required column by substituting
zero/blank values instead of raising.  The code refutes it:
`calculate_metrics` has no `try`/`except`, so on a table lacking the
work-duration column (for example, the empty `pd.DataFrame()` that a
failed load produces) the `KeyError` escapes the function unhandled, while
the two guarded calculators (`get_daily_comparison`, `get_clients_on_date`)
do recover to zeros exactly as the claim describes. -/
theorem c1_missing_column_raises :
    calculate_metrics emptyTable = .error ("KeyError: " ++ workcol) ∧
    (get_daily_comparison emptyTable 0).1 = (0, 0) ∧
    (get_clients_on_date emptyTable 0).1 = 0 :=
  ⟨rfl, rfl, rfl⟩

/-- C2: on a zero-row table that has all required columns,
`calculate_metrics` evaluates the work-duration mean of an empty column,
which is `NaN` (modelled `none`), not the `0` the claim requires — while
the total-words metric is indeed `"0"`.  `round(NaN, 2)` is still `NaN`;
the dashboard tile would display `nan`. -/
theorem c2_zero_rows_mean_is_nan :
    calculate_metrics zeroRowTable =
      .ok { avgMinutesOfWork := none, wordsTranslated := "0" } :=
  rfl

/-- C3: on a table with the `Date` and localized-minutes columns,
`get_daily_comparison` returns exactly the pair of date-filtered sums for
today and yesterday (rows whose date parses to the target date), and the
direction indicator computed by `main` is the up arrow iff today's sum
strictly exceeds yesterday's (ties giving the down arrow), with magnitude
the absolute difference. -/
theorem c3_daily_comparison (df : Table) (t : Int) (a b : ℚ)
    (hd : "Date" ∈ df.cols) (hm : locMincol ∈ df.cols) :
    (get_daily_comparison df t).1 =
      (dateFilteredSum df locMincol t, dateFilteredSum df locMincol (t - 1)) ∧
    (arrowFor a b = "⬆️" ↔ b < a) ∧
    arrowFor b b = "⬇️" ∧
    deltaMagnitude a b = |a - b| := by
  refine ⟨daily_fst df t hd hm, ?_, ?_, rfl⟩
  · unfold arrowFor
    constructor
    · intro h
      by_contra hb
      rw [if_neg (fun hab : a > b => hb hab)] at h
      exact absurd h (by decide)
    · intro hab
      rw [if_pos hab]
  · unfold arrowFor
    rw [if_neg (lt_irrefl b)]

/-- C3 witness: the spec scenario — today's localized sum 30, yesterday's
20, direction up, magnitude 10 — on a concrete two-day table. -/
theorem c3_daily_comparison_witness :
    (get_daily_comparison fullTable 10).1 =
      (dateFilteredSum fullTable locMincol 10, dateFilteredSum fullTable locMincol (10 - 1)) ∧
    (arrowFor 30 20 = "⬆️" ↔ (20 : ℚ) < 30) ∧
    arrowFor 20 20 = "⬇️" ∧
    deltaMagnitude 30 20 = |(30 : ℚ) - 20| :=
  c3_daily_comparison fullTable 10 30 20 (by decide) (by decide)

/-- C4 counterexample: the claim says evaluating a calculator leaves the
Metrics Table unchanged; but `get_daily_comparison` writes the coerced
`Date` column back into the frame in place, so a table holding an
unparseable date string comes back different (the string has become a
null `NaT` cell). -/
theorem c4_counterexample_mutation :
    (get_daily_comparison mutTable 0).2 ≠ mutTable := by
  decide

/-- C4 amended: the calculators are pure except for one in-place effect —
overwriting the `Date` column with its coerced (date-or-null) form.  Both
date-filtered calculators leave behind exactly the date-coerced table, the
coercion touches no other column and no column names, and it is idempotent
(so repeated calls cause no further change). -/
theorem c4_amended_mutation_is_date_coercion (df : Table) (t d : Int)
    (c : String) (hc : c ≠ "Date") :
    (get_daily_comparison df t).2 = coerceDateColumn df ∧
    (get_clients_on_date df d).2 = coerceDateColumn df ∧
    (coerceDateColumn df).cols = df.cols ∧
    (coerceDateColumn df).rows.map (fun r => rowGet r c) =
      df.rows.map (fun r => rowGet r c) ∧
    coerceDateColumn (coerceDateColumn df) = coerceDateColumn df :=
  ⟨daily_snd df t, clients_snd df d, coerceDateColumn_cols df,
    coerceDateColumn_other_cols df c hc, coerceDateColumn_idem df⟩

/-- C4 witness: the amended statement evaluated on the concrete mutated
table. -/
theorem c4_amended_mutation_is_date_coercion_witness :
    (get_daily_comparison mutTable 0).2 = coerceDateColumn mutTable ∧
    (get_clients_on_date mutTable 0).2 = coerceDateColumn mutTable ∧
    (coerceDateColumn mutTable).cols = mutTable.cols ∧
    (coerceDateColumn mutTable).rows.map (fun r => rowGet r locMincol) =
      mutTable.rows.map (fun r => rowGet r locMincol) ∧
    coerceDateColumn (coerceDateColumn mutTable) = coerceDateColumn mutTable :=
  c4_amended_mutation_is_date_coercion mutTable 0 0 locMincol (by decide)

unseal Rat.add Rat.mul Rat.inv Rat.sub in
/-- C5: whenever `calculate_metrics` returns, its total-words metric is the
thousands-formatted exact sum of the words-translated column (rational
sums, hence no rounding anywhere); the spec scenario (rows of 100 and 50
words) renders as "150", and separators are inserted in groups of three. -/
theorem c5_words_exact_sum (df : Table) (m : Metrics)
    (h : calculate_metrics df = .ok m) :
    m.wordsTranslated = fmtThousands (columnSumSpec df wordscol) ∧
    fmtThousands (columnSumSpec scenarioTable wordscol) = "150" ∧
    natThousands 1234567 = "1,234,567" := by
  refine ⟨?_, by decide, by decide⟩
  unfold calculate_metrics at h
  rcases hw : getCol df workcol with e | workCells <;> rw [hw] at h
  · cases h
  rcases hw2 : getCol df wordscol with e | wordCells <;> rw [hw2] at h
  · cases h
  have hm : m = { avgMinutesOfWork := (series_mean workCells).map pyround2,
                  wordsTranslated := fmtThousands (series_sum wordCells) } := by
    cases h; rfl
  have hcells : wordCells = df.rows.map (fun r => rowGet r wordscol) := by
    unfold getCol at hw2
    by_cases hmem : wordscol ∈ df.cols
    · rw [if_pos hmem] at hw2
      cases hw2; rfl
    · rw [if_neg hmem] at hw2
      cases hw2
  rw [hm, hcells]
  simp [series_sum_eq_columnSumSpec]

unseal Rat.add Rat.mul Rat.inv Rat.sub in
/-- C5 witness: the scenario table itself (work column present, unfilled)
flows through `calculate_metrics` and yields the "150" rendering. -/
theorem c5_words_exact_sum_witness :
    Metrics.wordsTranslated { avgMinutesOfWork := none, wordsTranslated := "150" } =
      fmtThousands (columnSumSpec scenarioTable wordscol) ∧
    fmtThousands (columnSumSpec scenarioTable wordscol) = "150" ∧
    natThousands 1234567 = "1,234,567" :=
  c5_words_exact_sum scenarioTable { avgMinutesOfWork := none, wordsTranslated := "150" }
    (by decide)

/-- C6: the loader half of the claim holds — on any read failure
`load_data` reports the error inline and returns the empty
`pd.DataFrame()`, propagating nothing — but the claimed consequence ("the
system continues rendering") fails: `main` then feeds that empty table to
the unguarded `calculate_metrics`, whose `KeyError` aborts the render. -/
theorem c6_load_failure_recovers_but_render_crashes (e : String) :
    load_data (Except.error e) = (emptyTable, some ("Error loading file: " ++ e)) ∧
    main_view emptyTable 0 = .error ("KeyError: " ++ workcol) :=
  ⟨rfl, rfl⟩

/-- C6 witness: the two conjuncts at a concrete failure message. -/
theorem c6_load_failure_witness :
    load_data (Except.error "File not found") =
      (emptyTable, some ("Error loading file: " ++ "File not found")) ∧
    main_view emptyTable 0 = .error ("KeyError: " ++ workcol) :=
  c6_load_failure_recovers_but_render_crashes "File not found"

/-- C7: a row whose date cell does not parse (coerced to `NaT`) contributes
to no date-filtered aggregate: appending such a row changes neither the
daily-comparison pair nor the clients-on-date value, for every table and
every target date. -/
theorem c7_unparseable_dates_excluded (df : Table) (r : Row) (t d : Int)
    (h : parseDate (rowGet r "Date") = none) :
    (get_daily_comparison (addRow df r) t).1 = (get_daily_comparison df t).1 ∧
    (get_clients_on_date (addRow df r) d).1 = (get_clients_on_date df d).1 := by
  constructor
  · by_cases hd : "Date" ∈ df.cols
    · by_cases hm : locMincol ∈ df.cols
      · rw [daily_fst (addRow df r) t hd hm, daily_fst df t hd hm,
          dateFilteredSum_addRow_null df r locMincol t h,
          dateFilteredSum_addRow_null df r locMincol (t - 1) h]
      · rw [daily_fst_nocol (addRow df r) t hm, daily_fst_nocol df t hm]
    · rw [daily_fst_nodate (addRow df r) t hd, daily_fst_nodate df t hd]
  · by_cases hd : "Date" ∈ df.cols
    · by_cases hc : clientscol ∈ df.cols
      · rw [clients_fst (addRow df r) d hd hc, clients_fst df d hd hc,
          dateFilteredSum_addRow_null df r clientscol d h]
      · rw [clients_fst_nocol (addRow df r) d hc, clients_fst_nocol df d hc]
    · rw [clients_fst_nodate (addRow df r) d hd, clients_fst_nodate df d hd]

/-- C7 witness: appending a concrete garbage-dated row (with nonzero metric
cells) to the concrete two-day table moves no aggregate. -/
theorem c7_unparseable_dates_excluded_witness :
    (get_daily_comparison (addRow fullTable badRow) 10).1 =
      (get_daily_comparison fullTable 10).1 ∧
    (get_clients_on_date (addRow fullTable badRow) 9).1 =
      (get_clients_on_date fullTable 9).1 :=
  c7_unparseable_dates_excluded fullTable badRow 10 9 (by decide)

/-- C8 counterexample: the claim says no modification event on a different
path triggers the reload; but the handler tests `src_path.endswith(EXCEL_FILE)`,
so an event for a different file whose name merely ends with the tracked
name — `./copy_Daily_Metric_Tracking_Sheet (1).xlsx` in the watched
directory — triggers the callback too. -/
theorem c8_counterexample_suffix_match :
    on_modified_triggers ("./copy_" ++ EXCEL_FILE) = true ∧
    ("./copy_" ++ EXCEL_FILE) ≠ trackedEventPath ∧
    ("./copy_" ++ EXCEL_FILE) ≠ EXCEL_FILE := by
  decide

/-- C8 amended: the handler invokes the reload callback exactly on the
events whose path ends with the tracked file name — so every event on the
tracked file (its event path `./EXCEL_FILE` included) triggers, but so does
any event whose path has the tracked name as a suffix. -/
theorem c8_amended_endswith_characterization (p : String) :
    on_modified_triggers p = true ↔ ∃ u : String, p = u ++ EXCEL_FILE := by
  unfold on_modified_triggers
  constructor
  · intro h
    have hsuf : EXCEL_FILE.data <:+ p.data := by
      unfold List.isSuffixOf at h
      have hp := List.isPrefixOf_iff_prefix.mp h
      exact List.reverse_prefix.mp (by simpa using hp)
    obtain ⟨u, hu⟩ := hsuf
    refine ⟨String.mk u, String.ext ?_⟩
    rw [String.data_append]
    exact hu.symm
  · rintro ⟨u, rfl⟩
    unfold List.isSuffixOf
    apply List.isPrefixOf_iff_prefix.mpr
    rw [String.data_append, List.reverse_append]
    exact List.prefix_append _ _

/-- C9: reloading from an unchanged backing file (the read outcome of
`pd.read_excel` is the same on both loads, since reading an unchanged file
is deterministic) yields identical Metrics Tables, and every metric
computed over the two loads is identical. -/
theorem c9_reload_idempotent (r1 r2 : Except String Table) (t d : Int)
    (h : r1 = r2) :
    (load_data r1).1 = (load_data r2).1 ∧
    calculate_metrics (load_data r1).1 = calculate_metrics (load_data r2).1 ∧
    get_daily_comparison (load_data r1).1 t = get_daily_comparison (load_data r2).1 t ∧
    get_clients_on_date (load_data r1).1 d = get_clients_on_date (load_data r2).1 d := by
  subst h
  exact ⟨rfl, rfl, rfl, rfl⟩

/-- C9 witness: two loads of the same concrete read outcome. -/
theorem c9_reload_idempotent_witness :
    (load_data (.ok fullTable)).1 = (load_data (.ok fullTable)).1 ∧
    calculate_metrics (load_data (.ok fullTable)).1 =
      calculate_metrics (load_data (.ok fullTable)).1 ∧
    get_daily_comparison (load_data (.ok fullTable)).1 10 =
      get_daily_comparison (load_data (.ok fullTable)).1 10 ∧
    get_clients_on_date (load_data (.ok fullTable)).1 9 =
      get_clients_on_date (load_data (.ok fullTable)).1 9 :=
  c9_reload_idempotent (.ok fullTable) (.ok fullTable) 10 9 rfl

/-- C10: the rendered view is exactly four tiles; the "Minutes Localized
(Paid)" tile's primary value is yesterday's localized-minutes sum (today's
appears only inside the delta annotation), and the "Total Clients
Onboarded" tile shows the clients-on-date value for yesterday, computed as
if on the original table; the clients-on-today value (computed by `main`)
appears in no tile. -/
theorem c10_view_shows_yesterday (df : Table) (t : Int) (m : Metrics)
    (h : calculate_metrics df = .ok m) :
    main_view df t = .ok
      [ { label := "Avg Minutes of Work", value := fmtAvg m.avgMinutesOfWork, delta := none },
        { label := "Total Words Translated", value := m.wordsTranslated, delta := none },
        { label := "Minutes Localized (Paid)",
          value := fmtNum (get_daily_comparison df t).1.2 ++ " min",
          delta := some (arrowFor (get_daily_comparison df t).1.1 (get_daily_comparison df t).1.2
            ++ " " ++
            fmtNum (deltaMagnitude (get_daily_comparison df t).1.1
              (get_daily_comparison df t).1.2)) },
        { label := "Total Clients Onboarded",
          value := fmtNum (get_clients_on_date df (t - 1)).1, delta := none } ] := by
  unfold main_view
  rw [h]
  dsimp only
  rw [daily_snd df t, clients_snd (coerceDateColumn df) t, coerceDateColumn_idem df,
    clients_fst_coerce df (t - 1)]

unseal Rat.add Rat.mul Rat.inv Rat.sub in
/-- C10 witness: the concrete two-day table renders with yesterday's sum
(20 min) as the localized tile's primary value and yesterday's client
count in the last tile. -/
theorem c10_view_shows_yesterday_witness :
    main_view fullTable 10 = .ok
      [ { label := "Avg Minutes of Work",
          value := fmtAvg (Metrics.avgMinutesOfWork
            { avgMinutesOfWork := some 15, wordsTranslated := "150" }), delta := none },
        { label := "Total Words Translated",
          value := Metrics.wordsTranslated
            { avgMinutesOfWork := some 15, wordsTranslated := "150" }, delta := none },
        { label := "Minutes Localized (Paid)",
          value := fmtNum (get_daily_comparison fullTable 10).1.2 ++ " min",
          delta := some (arrowFor (get_daily_comparison fullTable 10).1.1
            (get_daily_comparison fullTable 10).1.2
            ++ " " ++
            fmtNum (deltaMagnitude (get_daily_comparison fullTable 10).1.1
              (get_daily_comparison fullTable 10).1.2)) },
        { label := "Total Clients Onboarded",
          value := fmtNum (get_clients_on_date fullTable (10 - 1)).1, delta := none } ] :=
  c10_view_shows_yesterday fullTable 10
    { avgMinutesOfWork := some 15, wordsTranslated := "150" } (by decide)

end Dashboard
